import Mathlib

/-!
Verification of the contest leaderboard and eligibility engine of the Rails
`Contest` model (`src/ruby/ror/ror-example-with-active-admin.rb`), shallowly
embedded in Lean.

Modelling conventions:
* Database tables become lists of records inside a `DB` structure; ActiveRecord
  query chains become list filters and maps.
* Timestamps are integers (seconds); `1.day` is the constant `oneDay = 86400`.
* SQL string ordering (`ORDER BY` on text columns) is modelled by the
  lexicographic order on `List Char` (a binary collation); `ILIKE` becomes a
  case-insensitive substring test implemented by `ci_contains`.
* The ambient `Country.current` request context becomes the explicit field
  `DB.current_country`.
* The Resque queue and the Rails cache entry for one contest become the
  explicit `CacheState` structure: `invalidate_leaderboard` and `leaderboard`
  are state-passing functions over it.
-/

/-- A scored leaderboard entry as produced by `Contest#calculate_ranks`: the
credit score of the row together with the rank the loop assigns to it. -/
structure RankedEntry where
  credits : Int
  rank : Int
deriving DecidableEq

/-- Loop of `Contest#calculate_ranks`: the Ruby `each_with_index` iteration with
the running variables `current_credits` and `current_rank` (both initialised to
`-1`).  When the credits of the current row differ from `current_credits` the
rank is re-based to `index + 1`; otherwise the previous rank is kept.  In the
equal branch the Ruby code leaves `current_credits` unchanged, and that value
equals the credits of the current row, so both branches pass the row credits
along as the new `current_credits`. -/
def calculate_ranks_go : List Int → Nat → Int → Int → List RankedEntry
  | [], _, _, _ => []
  | c :: rest, index, currentCredits, currentRank =>
    let r : Int := if c = currentCredits then currentRank else (index : Int) + 1
    { credits := c, rank := r } :: calculate_ranks_go rest (index + 1) c r

/-- `Contest#calculate_ranks`, applied to the credits column of the already
sorted leaderboard rows. -/
def calculate_ranks (lb : List Int) : List RankedEntry :=
  calculate_ranks_go lb 0 (-1) (-1)

/-- One second short of nothing: the Rails `1.day` duration in seconds. -/
def oneDay : Int := 86400

/-- Row of the `regions` table (only the columns the engine reads). -/
structure Region where
  id : Nat
  region_code : String
deriving DecidableEq

/-- Row of the `users` table; `current_profile_id` models the
`user.current_profile` association used by `Contest#filter_by_list_ids`. -/
structure User where
  id : Nat
  first_name : String
  last_name : String
  current_profile_id : Nat
deriving DecidableEq

/-- Row of the `profiles` table (a participant). -/
structure Profile where
  id : Nat
  user_id : Nat
  country_id : Nat
  organization_name : String
  city : String
  zipcode : String
  region_id : Option Nat
  organization_type_id : Option Nat
deriving DecidableEq

/-- Row of the `collections` table; `active` models the `Collection.active`
scope. -/
structure Collection where
  id : Nat
  profile_id : Nat
  brigade_id : Nat
  active : Bool
deriving DecidableEq

/-- Row of the `shipments` table.  The `label_request -> collection` join chain
is collapsed into the single foreign key `collection_id`; `units_collected` is
the per-shipment units value summed by the `units_count` subquery. -/
structure Shipment where
  id : Nat
  collection_id : Nat
  created_at : Int
  units_collected : Int
deriving DecidableEq

/-- Row of the `contest_votes` table; `email_verified` is the `verified` flag
of the joined `contest_emails` row. -/
structure ContestVote where
  id : Nat
  contest_id : Nat
  profile_id : Nat
  email_verified : Bool
  created_at : Int
deriving DecidableEq

/-- The `Contest` record: the columns and associations the engine reads.
`list_ids` models the parsed `users_list_ids` column (`Contest#list_ids`);
`select_options` the organization-type option ids of the habtm association;
`regions` the allowed region ids; `brigade_ids` the brigade habtm. -/
structure Contest where
  id : Nat
  first_day : Int
  last_day : Int
  credits_by_vote : Int
  credits_by_shipment : Int
  credits_by_unit : Int
  users_list_white : Bool
  list_ids : List Nat
  select_options : List Nat
  regions : List Nat
  brigade_ids : List Nat
  leaderboard_display_address : Bool
deriving DecidableEq

/-- The database the engine queries, plus the ambient current country of the
request context (`Country.current`). -/
structure DB where
  current_country : Nat
  users : List User
  profiles : List Profile
  collections : List Collection
  shipments : List Shipment
  contest_votes : List ContestVote
  regions : List Region
deriving DecidableEq

/-- Membership in `Contest#interval_in_time_zone(offset)`: the inclusive range
from the start of `first_day` to the start of `last_day` plus `offset`. -/
def interval_in_time_zone (c : Contest) (offset t : Int) : Bool :=
  decide (c.first_day ≤ t) && decide (t ≤ c.last_day + offset)

/-- `Contest#active_contest_votes`: votes of this contest whose joined contest
email is verified and whose `created_at` lies in
`interval_in_time_zone(1.day)`. -/
def active_contest_votes (db : DB) (c : Contest) : List ContestVote :=
  db.contest_votes.filter fun v =>
    v.contest_id == c.id && v.email_verified && interval_in_time_zone c oneDay v.created_at

/-- `Contest#allowed_collections`: active collections of the contest
brigades. -/
def allowed_collections (db : DB) (c : Contest) : List Collection :=
  db.collections.filter fun col => col.active && c.brigade_ids.contains col.brigade_id

/-- The collection a shipment belongs to, through its label request. -/
def shipment_collection (db : DB) (s : Shipment) : Option Collection :=
  db.collections.find? fun col => col.id == s.collection_id

/-- `Contest#allowed_shipments`: shipments with `created_at` in
`interval_in_time_zone(1.day)` whose collection is an allowed collection. -/
def allowed_shipments (db : DB) (c : Contest) : List Shipment :=
  db.shipments.filter fun s =>
    interval_in_time_zone c oneDay s.created_at &&
      (match shipment_collection db s with
       | some col => col.active && c.brigade_ids.contains col.brigade_id
       | none => false)

/-- The profile ids of the listed users:
`User.where(id: list_ids).map { |u| u.current_profile.id }` in
`Contest#filter_by_list_ids`. -/
def list_profile_ids (db : DB) (c : Contest) : List Nat :=
  (db.users.filter fun u => c.list_ids.contains u.id).map fun u => u.current_profile_id

/-- `Contest#filter_by_list_ids` as a row predicate: `nil` (no restriction)
when the listed ids are blank, `profiles.id IN (...)` in whitelist mode and
`profiles.id NOT IN (...)` in blacklist mode. -/
def filter_by_list_ids (db : DB) (c : Contest) (p : Profile) : Bool :=
  if c.list_ids.isEmpty then true
  else if c.users_list_white then (list_profile_ids db c).contains p.id
  else !((list_profile_ids db c).contains p.id)

/-- Sort key of the `order` clause of `Contest#allowed_profiles`:
(organization_name, city, zipcode) ascending, strings compared by the binary
collation. -/
def profile_sort_key (p : Profile) : Lex (List Char × Lex (List Char × List Char)) :=
  toLex (p.organization_name.toList, toLex (p.city.toList, p.zipcode.toList))

/-- `Contest#allowed_profiles`: `Country.current.profiles` filtered by
`filter_by_list_ids`; the organization-type and region constraints sit inside
the `unless users_list_white` branch and are therefore applied only in
blacklist mode; the result is ordered by (organization_name, city, zipcode). -/
def allowed_profiles (db : DB) (c : Contest) : List Profile :=
  let scope := db.profiles.filter fun p =>
    p.country_id == db.current_country && filter_by_list_ids db c p
  let scope :=
    if !c.users_list_white && !c.select_options.isEmpty then
      scope.filter fun p =>
        match p.organization_type_id with
        | some t => c.select_options.contains t
        | none => false
    else scope
  let scope :=
    if !c.users_list_white && !c.regions.isEmpty then
      scope.filter fun p =>
        match p.region_id with
        | some r => c.regions.contains r
        | none => false
    else scope
  List.insertionSort (fun a b => profile_sort_key a ≤ profile_sort_key b) scope

/-- The user row a profile belongs to (`joins(:user)`). -/
def user_of (db : DB) (p : Profile) : Option User :=
  db.users.find? fun u => u.id == p.user_id

/-- Whether a profile owns at least one allowed collection
(`joins(:collections).merge(allowed_collections)`). -/
def has_allowed_collection (db : DB) (c : Contest) (p : Profile) : Bool :=
  (allowed_collections db c).any fun col => col.profile_id == p.id

/-- `Contest#contestant_list`: allowed profiles inner-joined with users and
with collections merged against `allowed_collections`, left-joined with
regions.  The row-per-collection fanout of the SQL join is collapsed to one
row per profile: every consumer works at profile granularity
(`raw_numbers` groups by `profiles.id`, `participant_search` calls `uniq`). -/
def contestant_list (db : DB) (c : Contest) : List Profile :=
  (allowed_profiles db c).filter fun p =>
    (user_of db p).isSome && has_allowed_collection db c p

/-- The `regions.region_code` value of the left join for a profile; a missing
region (SQL NULL) is modelled as the empty string. -/
def region_code_of (db : DB) (p : Profile) : String :=
  match p.region_id with
  | some rid =>
    match db.regions.find? (fun r => r.id == rid) with
    | some r => r.region_code
    | none => ""
  | none => ""

/-- The `vote_count` correlated subquery of `Contest#raw_numbers`: active
contest votes of the given profile. -/
def vote_count (db : DB) (c : Contest) (profile_id : Nat) : Nat :=
  ((active_contest_votes db c).filter fun v => v.profile_id == profile_id).length

/-- Allowed shipments whose collection belongs to the given profile
(`allowed_shipments.where('collections.profile_id = profiles.id')`). -/
def profile_shipments (db : DB) (c : Contest) (profile_id : Nat) : List Shipment :=
  (allowed_shipments db c).filter fun s =>
    match shipment_collection db s with
    | some col => col.profile_id == profile_id
    | none => false

/-- The `shipment_count` correlated subquery of `Contest#raw_numbers`. -/
def shipment_count (db : DB) (c : Contest) (profile_id : Nat) : Nat :=
  (profile_shipments db c profile_id).length

/-- The `units_count` correlated subquery of `Contest#raw_numbers`:
`COALESCE(sum(units_collected), 0)` — the sum over the empty set is 0. -/
def units_count (db : DB) (c : Contest) (profile_id : Nat) : Int :=
  ((profile_shipments db c profile_id).map Shipment.units_collected).sum

/-- A row of `Contest#raw_numbers`: the selected profile and user columns
together with the three aggregated counts. -/
structure RawRow where
  id : Nat
  organization_name : String
  first_name : String
  last_name : String
  city : String
  region_code : String
  zipcode : String
  vote_count : Int
  shipment_count : Int
  units_count : Int
deriving DecidableEq

/-- `Contest#raw_numbers`: one row per profile of `contestant_list`, with the
three correlated count subqueries. -/
def raw_numbers (db : DB) (c : Contest) : List RawRow :=
  (contestant_list db c).map fun p =>
    { id := p.id
      organization_name := p.organization_name
      first_name :=
        match user_of db p with
        | some u => u.first_name
        | none => ""
      last_name :=
        match user_of db p with
        | some u => u.last_name
        | none => ""
      city := p.city
      region_code := region_code_of db p
      zipcode := p.zipcode
      vote_count := (vote_count db c p.id : Int)
      shipment_count := (shipment_count db c p.id : Int)
      units_count := units_count db c p.id }

/-- The credits expression selected by `Contest#leaderboard_scope`:
`credits_by_shipment * shipment_count + credits_by_vote * vote_count +
credits_by_unit * units_count`. -/
def row_credits (c : Contest) (r : RawRow) : Int :=
  c.credits_by_shipment * r.shipment_count + c.credits_by_vote * r.vote_count +
    c.credits_by_unit * r.units_count

/-- A row of `Contest#leaderboard_scope`: a raw-numbers row together with its
computed credits column. -/
structure LBEntry where
  row : RawRow
  credits : Int
deriving DecidableEq

/-- The textual part of the `ORDER BY` of `Contest#leaderboard_scope`:
(organization_name, city, region_code, zipcode) ascending, strings compared by
the binary collation. -/
def lb_string_key (e : LBEntry) :
    Lex (List Char × Lex (List Char × Lex (List Char × List Char))) :=
  toLex (e.row.organization_name.toList,
    toLex (e.row.city.toList, toLex (e.row.region_code.toList, e.row.zipcode.toList)))

/-- Full sort key of `ORDER BY credits desc, organization_name, city,
region_code, zipcode`: descending credits first (encoded by negation), then
the textual tie-break keys. -/
def lbKey (e : LBEntry) :
    Lex (Int × Lex (List Char × Lex (List Char × Lex (List Char × List Char)))) :=
  toLex (-e.credits, lb_string_key e)

/-- `Contest#leaderboard_scope`: the raw-numbers rows with the credits column,
ordered by the `ORDER BY` clause above. -/
def leaderboard_scope (db : DB) (c : Contest) : List LBEntry :=
  List.insertionSort (fun a b => lbKey a ≤ lbKey b)
    ((raw_numbers db c).map fun r => { row := r, credits := row_credits c r })

/-- ASCII lowering of one character, modelling the case folding of `ILIKE`. -/
def lower_char (ch : Char) : Char :=
  if 'A' ≤ ch && ch ≤ 'Z' then Char.ofNat (ch.toNat + 32) else ch

/-- Whether the second character list is a prefix of the first. -/
def starts_with_chars : List Char → List Char → Bool
  | _, [] => true
  | [], _ :: _ => false
  | a :: s, b :: t => a == b && starts_with_chars s t

/-- Whether the second character list occurs contiguously in the first. -/
def contains_chars : List Char → List Char → Bool
  | [], needle => needle.isEmpty
  | a :: t, needle => starts_with_chars (a :: t) needle || contains_chars t needle

/-- `haystack ILIKE '%needle%'` with a sanitised needle: case-insensitive
substring containment. -/
def ci_contains (s q : String) : Bool :=
  contains_chars (s.toList.map lower_char) (q.toList.map lower_char)

/-- `CONCAT(users.first_name, ' ', users.last_name)` for the owning user of a
profile. -/
def full_name (db : DB) (p : Profile) : String :=
  match user_of db p with
  | some u => u.first_name ++ " " ++ u.last_name
  | none => ""

/-- The disjunction of `ILIKE` conditions of `Contest#participant_search`. -/
def search_match (db : DB) (q : String) (p : Profile) : Bool :=
  ci_contains p.organization_name q || ci_contains (full_name db p) q ||
    ci_contains p.zipcode q || ci_contains p.city q || ci_contains (region_code_of db p) q

/-- `Contest#participant_search`: the contestant list (already one row per
profile, making `uniq` the identity here) filtered by the `ILIKE` disjunction,
truncated by `limit(5)`. -/
def participant_search (db : DB) (c : Contest) (q : String) : List Profile :=
  ((contestant_list db c).filter (search_match db q)).take 5

/-- The mutable state around one leaderboard: the Rails cache entry under
`leaderboard_cache_key` and the Resque queue of `ContestGenerateLeaderboard`
job arguments. -/
structure CacheState where
  cache : Option (List RankedEntry)
  queue : List Nat
deriving DecidableEq

/-- `Contest#invalidate_leaderboard`:
`Resque.enqueue(ContestGenerateLeaderboard, id) if leaderboard_display_address`
— one more job is appended to the queue whenever the flag is set. -/
def invalidate_leaderboard (c : Contest) (s : CacheState) : CacheState :=
  if c.leaderboard_display_address then { s with queue := s.queue ++ [c.id] } else s

/-- `Contest#leaderboard`: return the cached entries when the cache key
exists; otherwise call `invalidate_leaderboard` and return `[]`. -/
def leaderboard (c : Contest) (s : CacheState) : List RankedEntry × CacheState :=
  match s.cache with
  | some entries => (entries, s)
  | none => ([], invalidate_leaderboard c s)

/-- The scoring window claim C2 describes, written from the spec words: a
rolling window `[asOf - windowSize, asOf + slack]` ending at the current
time.  Kept separate from `interval_in_time_zone` so the two can be
compared. -/
def rolling_window (asOf windowSize slack t : Int) : Bool :=
  decide (asOf - windowSize ≤ t) && decide (t ≤ asOf + slack)

/-- The whitelist eligible set claim C3 describes, written from the spec
words: participants whose owning user id is in the listed set, intersected
with the category (organization-type) and region constraints whenever those
are present.  Kept separate from `allowed_profiles` so the two can be
compared. -/
def allowed_profiles_claimed (db : DB) (c : Contest) : List Profile :=
  db.profiles.filter fun p =>
    p.country_id == db.current_country &&
      c.list_ids.contains p.user_id &&
      (c.select_options.isEmpty ||
        (match p.organization_type_id with
         | some t => c.select_options.contains t
         | none => false)) &&
      (c.regions.isEmpty ||
        (match p.region_id with
         | some r => c.regions.contains r
         | none => false))

/-- The case-insensitive textual tie-break key claim C7 describes, written
from the spec words: each tie-break field is case-folded before being
compared. -/
def ci_string_key (e : LBEntry) :
    Lex (List Char × Lex (List Char × Lex (List Char × List Char))) :=
  toLex (e.row.organization_name.toList.map lower_char,
    toLex (e.row.city.toList.map lower_char,
      toLex (e.row.region_code.toList.map lower_char, e.row.zipcode.toList.map lower_char)))

/-- The leaderboard ordering claim C7 describes, written from the spec words:
credits descending first, equal credits ordered ascending and
case-insensitively by the four textual keys. -/
def claimed_order (a b : LBEntry) : Prop :=
  b.credits < a.credits ∨ (a.credits = b.credits ∧ ci_string_key a ≤ ci_string_key b)

instance (a b : LBEntry) : Decidable (claimed_order a b) := by
  unfold claimed_order; infer_instance

instance : IsTotal LBEntry (fun a b => lbKey a ≤ lbKey b) :=
  ⟨fun a b => le_total (lbKey a) (lbKey b)⟩

instance : IsTrans LBEntry (fun a b => lbKey a ≤ lbKey b) :=
  ⟨fun _ _ _ h1 h2 => le_trans h1 h2⟩

/-- Default leaderboard row used by positional lookups. -/
def empty_entry : LBEntry :=
  { row := { id := 0, organization_name := "", first_name := "", last_name := "",
             city := "", region_code := "", zipcode := "", vote_count := 0,
             shipment_count := 0, units_count := 0 },
    credits := 0 }

/-- Fixture: a ten-day contest with unit weights, no list restriction, no
category or region constraint, one brigade, leaderboard address display on. -/
def c_base : Contest :=
  { id := 1, first_day := 0, last_day := 10 * oneDay,
    credits_by_vote := 1, credits_by_shipment := 1, credits_by_unit := 1,
    users_list_white := false, list_ids := [], select_options := [], regions := [],
    brigade_ids := [1], leaderboard_display_address := true }

/-- Fixture for C2: one verified vote cast on the first day of the contest and
one shipment on day zero plus five seconds, both attached to an allowed
collection. -/
def db2 : DB :=
  { current_country := 1
    users := [{ id := 1, first_name := "Ann", last_name := "Lee", current_profile_id := 1 }]
    profiles := [{ id := 1, user_id := 1, country_id := 1, organization_name := "Org",
                   city := "X", zipcode := "1", region_id := none,
                   organization_type_id := none }]
    collections := [{ id := 1, profile_id := 1, brigade_id := 1, active := true }]
    shipments := [{ id := 1, collection_id := 1, created_at := 5, units_collected := 2 }]
    contest_votes := [{ id := 1, contest_id := 1, profile_id := 1, email_verified := true,
                        created_at := 0 }]
    regions := [] }

/-- Fixture profile for C3: owned by the whitelisted user 1, organization type
7, which is outside the category constraint of `c3`. -/
def p3 : Profile :=
  { id := 1, user_id := 1, country_id := 1, organization_name := "Org",
    city := "X", zipcode := "1", region_id := none, organization_type_id := some 7 }

/-- Fixture database for C3. -/
def db3 : DB :=
  { current_country := 1
    users := [{ id := 1, first_name := "Ann", last_name := "Lee", current_profile_id := 1 }]
    profiles := [p3]
    collections := []
    shipments := []
    contest_votes := []
    regions := [] }

/-- Fixture contest for C3: whitelist mode, user 1 listed, category constraint
restricted to organization type 42. -/
def c3 : Contest :=
  { c_base with users_list_white := true, list_ids := [1], select_options := [42] }

/-- Fixture profile for C6: owned by user 1, organization type 7. -/
def p6a : Profile :=
  { id := 1, user_id := 1, country_id := 1, organization_name := "A",
    city := "X", zipcode := "1", region_id := none, organization_type_id := some 7 }

/-- Fixture database for C6: two users with one profile each. -/
def db6 : DB :=
  { current_country := 1
    users := [{ id := 1, first_name := "Ann", last_name := "Lee", current_profile_id := 1 },
              { id := 2, first_name := "Bob", last_name := "Kim", current_profile_id := 2 }]
    profiles := [p6a,
                 { id := 2, user_id := 2, country_id := 1, organization_name := "B",
                   city := "Y", zipcode := "2", region_id := none,
                   organization_type_id := some 42 }]
    collections := []
    shipments := []
    contest_votes := []
    regions := [] }

/-- Fixture contest for C6 with an empty listed-id set. -/
def c6e : Contest := { c_base with list_ids := [] }

/-- Fixture contest for C6 with user 2 listed and a category constraint. -/
def c6b : Contest := { c_base with list_ids := [2], select_options := [42] }

/-- Fixture contest for C6 with user 2 listed and no constraints. -/
def c6x : Contest := { c_base with list_ids := [2] }

/-- Fixture contest for C5 with a zero vote weight. -/
def c5 : Contest := { c_base with credits_by_vote := 0 }

/-- Fixture raw-numbers row for C5. -/
def r5 : RawRow :=
  { id := 1, organization_name := "", first_name := "", last_name := "", city := "",
    region_code := "", zipcode := "", vote_count := 3, shipment_count := 2,
    units_count := 4 }

/-- Fixture database for C7: two contestants with equal (zero) credits whose
organization names differ only in letter case order, both with an active
collection in brigade 1. -/
def db7 : DB :=
  { current_country := 1
    users := [{ id := 1, first_name := "Uma", last_name := "Noe", current_profile_id := 1 },
              { id := 2, first_name := "Wes", last_name := "Orr", current_profile_id := 2 }]
    profiles := [{ id := 1, user_id := 1, country_id := 1, organization_name := "a",
                   city := "", zipcode := "", region_id := none,
                   organization_type_id := none },
                 { id := 2, user_id := 2, country_id := 1, organization_name := "B",
                   city := "", zipcode := "", region_id := none,
                   organization_type_id := none }]
    collections := [{ id := 1, profile_id := 1, brigade_id := 1, active := true },
                    { id := 2, profile_id := 2, brigade_id := 1, active := true }]
    shipments := []
    contest_votes := []
    regions := [] }

/-- Fixture profile for C8: organization name Acme, eligible and owning an
allowed collection. -/
def p8 : Profile :=
  { id := 1, user_id := 1, country_id := 1, organization_name := "Acme",
    city := "Paris", zipcode := "75001", region_id := none, organization_type_id := none }

/-- Fixture database for C8. -/
def db8 : DB :=
  { current_country := 1
    users := [{ id := 1, first_name := "Ann", last_name := "Lee", current_profile_id := 1 }]
    profiles := [p8]
    collections := [{ id := 1, profile_id := 1, brigade_id := 1, active := true }]
    shipments := []
    contest_votes := []
    regions := [] }

/-- Fixture contest for C10 with the address display flag unset. -/
def c10 : Contest := { c_base with leaderboard_display_address := false }

theorem calculate_ranks_go_length (lb : List Int) :
    ∀ i cc cr, (calculate_ranks_go lb i cc cr).length = lb.length := by
  induction lb with
  | nil => intro i cc cr; rfl
  | cons c rest ih => intro i cc cr; simp [calculate_ranks_go, ih]

theorem calculate_ranks_go_credits (lb : List Int) :
    ∀ i cc cr k, k < lb.length →
      ((calculate_ranks_go lb i cc cr).getD k ⟨0, 0⟩).credits = lb.getD k 0 := by
  induction lb with
  | nil => intro i cc cr k h; simp at h
  | cons c rest ih =>
    intro i cc cr k h
    cases k with
    | zero => simp [calculate_ranks_go]
    | succ k =>
      simp only [calculate_ranks_go, List.getD_cons_succ]
      exact ih _ _ _ k (by simpa using h)

theorem calculate_ranks_go_rank_zero (lb : List Int) (i : Nat) (cc cr : Int)
    (h : lb ≠ []) :
    ((calculate_ranks_go lb i cc cr).getD 0 ⟨0, 0⟩).rank =
      if lb.getD 0 0 = cc then cr else (i : Int) + 1 := by
  cases lb with
  | nil => exact absurd rfl h
  | cons c rest => simp [calculate_ranks_go]

theorem calculate_ranks_go_rank_step (lb : List Int) :
    ∀ i cc cr k, k + 1 < lb.length →
      ((calculate_ranks_go lb i cc cr).getD (k + 1) ⟨0, 0⟩).rank =
        if lb.getD (k + 1) 0 = lb.getD k 0 then
          ((calculate_ranks_go lb i cc cr).getD k ⟨0, 0⟩).rank
        else (i : Int) + (k : Int) + 2 := by
  induction lb with
  | nil => intro i cc cr k h; simp at h
  | cons c rest ih =>
    intro i cc cr k h
    cases k with
    | zero =>
      have hrest : rest ≠ [] := by
        cases rest with
        | nil => simp at h
        | cons _ _ => simp
      simp only [calculate_ranks_go, List.getD_cons_succ, List.getD_cons_zero]
      rw [calculate_ranks_go_rank_zero rest (i + 1) c _ hrest]
      by_cases hc : rest.getD 0 0 = c
      · rw [if_pos hc, if_pos hc]
      · rw [if_neg hc, if_neg hc]
        push_cast
        ring
    | succ k =>
      have h2 : k + 1 < rest.length := by simpa using h
      simp only [calculate_ranks_go, List.getD_cons_succ]
      rw [ih (i + 1) c _ k h2]
      by_cases hc : rest.getD (k + 1) 0 = rest.getD k 0
      · rw [if_pos hc, if_pos hc]
      · rw [if_neg hc, if_neg hc]
        push_cast
        ring

theorem calculate_ranks_length (lb : List Int) :
    (calculate_ranks lb).length = lb.length :=
  calculate_ranks_go_length lb 0 (-1) (-1)

theorem calculate_ranks_credits (lb : List Int) (k : Nat) (h : k < lb.length) :
    ((calculate_ranks lb).getD k ⟨0, 0⟩).credits = lb.getD k 0 :=
  calculate_ranks_go_credits lb 0 (-1) (-1) k h

theorem calculate_ranks_rank_zero (lb : List Int) (h : lb ≠ []) :
    ((calculate_ranks lb).getD 0 ⟨0, 0⟩).rank =
      if lb.getD 0 0 = -1 then -1 else 1 := by
  simpa [calculate_ranks] using calculate_ranks_go_rank_zero lb 0 (-1) (-1) h

theorem calculate_ranks_rank_step (lb : List Int) (k : Nat) (h : k + 1 < lb.length) :
    ((calculate_ranks lb).getD (k + 1) ⟨0, 0⟩).rank =
      if lb.getD (k + 1) 0 = lb.getD k 0 then
        ((calculate_ranks lb).getD k ⟨0, 0⟩).rank
      else (k : Int) + 2 := by
  simpa [calculate_ranks] using calculate_ranks_go_rank_step lb 0 (-1) (-1) k h

theorem sorted_getD_le (lb : List Int) (hsort : List.Sorted (· ≥ ·) lb)
    (a b : Nat) (ha : a < lb.length) (hb : b < lb.length) (hab : a ≤ b) :
    lb.getD b 0 ≤ lb.getD a 0 := by
  rcases Nat.lt_or_ge a b with h | h
  · have hf : (⟨a, ha⟩ : Fin lb.length) < ⟨b, hb⟩ := Fin.mk_lt_mk.mpr h
    have := hsort.rel_get_of_lt hf
    rw [List.getD_eq_get _ _ ha, List.getD_eq_get _ _ hb]
    exact this
  · have hba : a = b := le_antisymm hab h
    subst hba
    exact le_refl _

/-- Claim C1: on input already sorted by credits descending, rank assignment
shares ranks between equal-credit entries and re-bases the rank of the first
entry after a run of equal credits to its own 1-based position in the sorted
order; the example credit column [10, 10, 8, 8, 8, 5] yields the ranks
[1, 1, 3, 3, 3, 6], and the empty input yields the empty output. -/
theorem C1_rank_assignment :
    calculate_ranks [] = [] ∧
    (calculate_ranks [10, 10, 8, 8, 8, 5]).map RankedEntry.rank = [1, 1, 3, 3, 3, 6] ∧
    ∀ lb : List Int, List.Sorted (· ≥ ·) lb → (∀ x ∈ lb, 0 ≤ x) →
      (calculate_ranks lb).length = lb.length ∧
      (∀ k, k < lb.length →
        ((calculate_ranks lb).getD k ⟨0, 0⟩).credits = lb.getD k 0) ∧
      (lb ≠ [] → ((calculate_ranks lb).getD 0 ⟨0, 0⟩).rank = 1) ∧
      (∀ j k, j ≤ k → k < lb.length → lb.getD j 0 = lb.getD k 0 →
        ((calculate_ranks lb).getD j ⟨0, 0⟩).rank =
          ((calculate_ranks lb).getD k ⟨0, 0⟩).rank) ∧
      (∀ k, k + 1 < lb.length → lb.getD (k + 1) 0 ≠ lb.getD k 0 →
        ((calculate_ranks lb).getD (k + 1) ⟨0, 0⟩).rank = (k : Int) + 2) := by
  refine ⟨rfl, by decide, ?_⟩
  intro lb hsort hpos
  refine ⟨calculate_ranks_length lb, fun k hk => calculate_ranks_credits lb k hk, ?_, ?_, ?_⟩
  · intro hne
    rw [calculate_ranks_rank_zero lb hne]
    have h0 : 0 < lb.length := by
      cases lb with
      | nil => exact absurd rfl hne
      | cons _ _ => simp
    have hmem : lb.getD 0 0 ∈ lb := by
      rw [List.getD_eq_get _ _ h0]
      exact List.get_mem lb 0 h0
    have : (0 : Int) ≤ lb.getD 0 0 := hpos _ hmem
    have hne1 : lb.getD 0 0 ≠ -1 := by omega
    rw [if_neg hne1]
  · intro j k hjk hk hcredits
    obtain ⟨d, rfl⟩ : ∃ d, k = j + d := ⟨k - j, by omega⟩
    clear hjk
    induction d with
    | zero => rfl
    | succ d ihd =>
      have hjd : j + d < lb.length := by omega
      have hj : j < lb.length := by omega
      have hc1 : lb.getD (j + d) 0 ≤ lb.getD j 0 :=
        sorted_getD_le lb hsort j (j + d) hj hjd (by omega)
      have hc2 : lb.getD (j + d + 1) 0 ≤ lb.getD (j + d) 0 :=
        sorted_getD_le lb hsort (j + d) (j + d + 1) hjd (by omega) (by omega)
      have hcs : lb.getD j 0 = lb.getD (j + d + 1) 0 := hcredits
      have heq : lb.getD (j + d) 0 = lb.getD j 0 :=
        le_antisymm hc1 (by rw [hcs]; exact hc2)
      have hstep := calculate_ranks_rank_step lb (j + d) (by omega)
      have hcc : lb.getD (j + d + 1) 0 = lb.getD (j + d) 0 := by
        rw [← hcs]
        exact heq.symm
      rw [if_pos hcc] at hstep
      have ih2 := ihd (by omega) heq.symm
      calc ((calculate_ranks lb).getD j ⟨0, 0⟩).rank
          = ((calculate_ranks lb).getD (j + d) ⟨0, 0⟩).rank := ih2
        _ = ((calculate_ranks lb).getD (j + d + 1) ⟨0, 0⟩).rank := hstep.symm
  · intro k hk hne
    rw [calculate_ranks_rank_step lb k hk, if_neg hne]

/-- Witness for C1 at the concrete sorted credit column [5, 5, 3]: the head
rank is 1, the tied second entry shares it, and the third entry is re-based to
its 1-based position 3. -/
theorem C1_rank_assignment_witness :
    ((calculate_ranks [5, 5, 3]).getD 0 ⟨0, 0⟩).rank = 1 ∧
    ((calculate_ranks [5, 5, 3]).getD 0 ⟨0, 0⟩).rank =
      ((calculate_ranks [5, 5, 3]).getD 1 ⟨0, 0⟩).rank ∧
    ((calculate_ranks [5, 5, 3]).getD 2 ⟨0, 0⟩).rank = (1 : Int) + 2 := by
  have h := C1_rank_assignment.2.2 [5, 5, 3] (by decide) (by decide)
  exact ⟨h.2.2.1 (by decide), h.2.2.2.1 0 1 (by decide) (by decide) (by decide),
    h.2.2.2.2 1 (by decide) (by decide)⟩

/-- Counterexample to claim C2: with the contest running over days 0..10, the
code counts a verified vote cast at time 0 (the first day), although the
claimed rolling scoring window — a 1-day look-back with 1-day forward slack,
evaluated at the contest end taken as the current time — excludes time 0. -/
theorem C2_rolling_window_cx :
    (active_contest_votes db2 c_base).map ContestVote.created_at = [0] ∧
    rolling_window (10 * oneDay) oneDay oneDay 0 = false := by
  constructor
  · decide
  · decide

/-- Claim C2 amended: the aggregation windows are not rolling windows relative
to the current time; a vote is counted exactly when it belongs to the contest,
its email is verified and its timestamp lies in the full contest span extended
by one day of forward slack, [first_day, last_day + 1 day]; shipments are
likewise restricted to that same span. -/
theorem C2_window_amended (db : DB) (c : Contest) :
    (∀ v : ContestVote, v ∈ active_contest_votes db c ↔
      v ∈ db.contest_votes ∧ v.contest_id = c.id ∧ v.email_verified = true ∧
        c.first_day ≤ v.created_at ∧ v.created_at ≤ c.last_day + oneDay) ∧
    (∀ s : Shipment, s ∈ allowed_shipments db c →
      c.first_day ≤ s.created_at ∧ s.created_at ≤ c.last_day + oneDay) := by
  constructor
  · intro v
    simp [active_contest_votes, List.mem_filter, interval_in_time_zone, and_assoc]
  · intro s hs
    have h := (List.mem_filter.mp hs).2
    simp only [interval_in_time_zone, Bool.and_eq_true, decide_eq_true_eq] at h
    exact ⟨h.1.1, h.1.2⟩

/-- Witness for the amended C2 at a concrete shipment of the fixture
database. -/
theorem C2_window_amended_witness :
    c_base.first_day ≤ (5 : Int) ∧ (5 : Int) ≤ c_base.last_day + oneDay :=
  (C2_window_amended db2 c_base).2
    { id := 1, collection_id := 1, created_at := 5, units_collected := 2 } (by decide)

/-- Counterexample to claim C3: contest c3 is in whitelist mode with a
category constraint (organization type 42); profile p3 is owned by a listed
user but has organization type 7, so the claimed eligible set excludes it —
yet the code includes it, because the category and region constraints are
applied only in blacklist mode. -/
theorem C3_whitelist_cx :
    p3 ∈ allowed_profiles db3 c3 ∧ p3 ∉ allowed_profiles_claimed db3 c3 := by
  constructor
  · decide
  · decide

/-- Claim C3 amended: in whitelist mode with a nonempty listed set, the
eligible set is exactly the current-country profiles that are the current
profile of a listed user; the category and region constraints are not applied
in whitelist mode. -/
theorem mem_allowed_profiles_white (db : DB) (c : Contest) (p : Profile)
    (hw : c.users_list_white = true) (hne : c.list_ids.isEmpty = false) :
    p ∈ allowed_profiles db c ↔
      p ∈ db.profiles ∧ p.country_id = db.current_country ∧
        p.id ∈ list_profile_ids db c := by
  simp [allowed_profiles, hw, filter_by_list_ids, hne, List.mem_insertionSort,
    List.mem_filter, and_assoc]

theorem mem_allowed_profiles_black (db : DB) (c : Contest) (p : Profile)
    (hw : c.users_list_white = false) (hne : c.list_ids.isEmpty = false)
    (hcat : c.select_options = []) (hreg : c.regions = []) :
    p ∈ allowed_profiles db c ↔
      p ∈ db.profiles ∧ p.country_id = db.current_country ∧
        ¬ p.id ∈ list_profile_ids db c := by
  simp [allowed_profiles, hw, filter_by_list_ids, hne, hcat, hreg,
    List.mem_insertionSort, List.mem_filter, and_assoc]

theorem C3_whitelist_amended (db : DB) (c : Contest) (p : Profile)
    (hw : c.users_list_white = true) (hne : c.list_ids.isEmpty = false) :
    p ∈ allowed_profiles db c ↔
      p ∈ db.profiles ∧ p.country_id = db.current_country ∧
        p.id ∈ list_profile_ids db c :=
  mem_allowed_profiles_white db c p hw hne

/-- Witness for the amended C3 at the fixture whitelist contest. -/
theorem C3_whitelist_amended_witness :
    p3 ∈ db3.profiles ∧ p3.country_id = db3.current_country ∧
      p3.id ∈ list_profile_ids db3 c3 :=
  (C3_whitelist_amended db3 c3 p3 rfl rfl).mp (by decide)

/-- Claim C5: the credit score of a row is the weighted sum
vote weight * vote count + shipment weight * shipment count +
unit weight * unit count, and a zero weight makes the corresponding count
contribute nothing. -/
theorem C5_score_linear (c : Contest) (r : RawRow) :
    row_credits c r =
      c.credits_by_vote * r.vote_count + c.credits_by_shipment * r.shipment_count +
        c.credits_by_unit * r.units_count ∧
    (c.credits_by_vote = 0 → ∀ n : Int,
      row_credits c { r with vote_count := n } = row_credits c r) ∧
    (c.credits_by_shipment = 0 → ∀ n : Int,
      row_credits c { r with shipment_count := n } = row_credits c r) ∧
    (c.credits_by_unit = 0 → ∀ n : Int,
      row_credits c { r with units_count := n } = row_credits c r) := by
  refine ⟨?_, ?_, ?_, ?_⟩
  · simp only [row_credits]
    ring
  · intro h n
    simp [row_credits, h]
  · intro h n
    simp [row_credits, h]
  · intro h n
    simp [row_credits, h]

/-- Witness for C5: with a zero vote weight, changing the vote count leaves
the score unchanged. -/
theorem C5_score_linear_witness :
    row_credits c5 { r5 with vote_count := 9 } = row_credits c5 r5 :=
  (C5_score_linear c5 r5).2.1 rfl 9

/-- Counterexample to claim C6: with an empty listed set both modes return
every current-country participant, so the intersection is nonempty; and with
a nonempty listed set plus a category constraint, profile p6a (unlisted,
organization type outside the constraint) is in neither set, so the union
misses a participant. -/
theorem C6_complement_cx :
    (p6a ∈ allowed_profiles db6 { c6e with users_list_white := true } ∧
      p6a ∈ allowed_profiles db6 { c6e with users_list_white := false }) ∧
    (p6a ∉ allowed_profiles db6 { c6b with users_list_white := true } ∧
      p6a ∉ allowed_profiles db6 { c6b with users_list_white := false } ∧
      p6a ∈ db6.profiles ∧ p6a.country_id = db6.current_country) := by
  decide

/-- Claim C6 amended: for a nonempty listed set and with no category or region
constraints configured, the whitelist-mode and blacklist-mode eligible sets
partition the current-country participant population: each such participant
is in exactly one of the two. -/
theorem list_profile_ids_eq (db : DB) (c c2 : Contest) (h : c.list_ids = c2.list_ids) :
    list_profile_ids db c = list_profile_ids db c2 := by
  simp [list_profile_ids, h]

theorem C6_complement_amended (db : DB) (c : Contest) (p : Profile)
    (hne : c.list_ids.isEmpty = false) (hcat : c.select_options = [])
    (hreg : c.regions = []) (hp : p ∈ db.profiles)
    (hpc : p.country_id = db.current_country) :
    p ∈ allowed_profiles db { c with users_list_white := true } ↔
      ¬ p ∈ allowed_profiles db { c with users_list_white := false } := by
  rw [mem_allowed_profiles_white db { c with users_list_white := true } p rfl hne,
    mem_allowed_profiles_black db { c with users_list_white := false } p rfl hne hcat hreg,
    list_profile_ids_eq db { c with users_list_white := true } c rfl,
    list_profile_ids_eq db { c with users_list_white := false } c rfl]
  simp [hp, hpc]

/-- Witness for the amended C6 at the fixture contest with listed user 2 and
no constraints. -/
theorem C6_complement_amended_witness :
    p6a ∈ allowed_profiles db6 { c6x with users_list_white := true } ↔
      ¬ p6a ∈ allowed_profiles db6 { c6x with users_list_white := false } :=
  C6_complement_amended db6 c6x p6a rfl rfl rfl (by decide) rfl

/-- Counterexample to claim C7: in the fixture leaderboard both contestants
have equal (zero) credits, and the computed order puts organization "B" before
"a" (binary string comparison), while the claimed case-insensitive ascending
tie-break requires "a" before "B"; so the computed leaderboard violates the
claimed ordering. -/
theorem C7_case_sensitive_cx :
    (leaderboard_scope db7 c_base).map (fun e => e.row.organization_name) = ["B", "a"] ∧
    ¬ List.Sorted claimed_order (leaderboard_scope db7 c_base) := by
  constructor
  · decide
  · decide

/-- Claim C7 amended: leaderboard entries are ordered primarily by credits
descending, and any two entries with equal credits are ordered ascending by
organization name, then city, then region code, then postal code under the
binary (case-sensitive) string comparison of the database collation. -/
theorem C7_leaderboard_order (db : DB) (c : Contest) :
    ∀ j k, j < k → k < (leaderboard_scope db c).length →
      ((leaderboard_scope db c).getD k empty_entry).credits ≤
        ((leaderboard_scope db c).getD j empty_entry).credits ∧
      (((leaderboard_scope db c).getD j empty_entry).credits =
          ((leaderboard_scope db c).getD k empty_entry).credits →
        lb_string_key ((leaderboard_scope db c).getD j empty_entry) ≤
          lb_string_key ((leaderboard_scope db c).getD k empty_entry)) := by
  intro j k hjk hk
  have hj : j < (leaderboard_scope db c).length := lt_trans hjk hk
  have hs : List.Sorted (fun a b => lbKey a ≤ lbKey b) (leaderboard_scope db c) :=
    List.sorted_insertionSort _ _
  have hf : (⟨j, hj⟩ : Fin (leaderboard_scope db c).length) < ⟨k, hk⟩ :=
    Fin.mk_lt_mk.mpr hjk
  have hrel := hs.rel_get_of_lt hf
  rw [List.getD_eq_get _ _ hj, List.getD_eq_get _ _ hk]
  set a := (leaderboard_scope db c).get ⟨j, hj⟩
  set b := (leaderboard_scope db c).get ⟨k, hk⟩
  simp only [lbKey] at hrel
  rw [Prod.Lex.le_iff] at hrel
  dsimp only at hrel
  constructor
  · rcases hrel with h | h
    · have hlt : b.credits < a.credits := by omega
      exact le_of_lt hlt
    · have heq : a.credits = b.credits := by omega
      exact le_of_eq heq.symm
  · intro hcred
    rcases hrel with h | h
    · exfalso
      omega
    · exact h.2

/-- Witness for the amended C7 at the two-entry fixture leaderboard. -/
theorem C7_leaderboard_order_witness :
    ((leaderboard_scope db7 c_base).getD 1 empty_entry).credits ≤
      ((leaderboard_scope db7 c_base).getD 0 empty_entry).credits ∧
    (((leaderboard_scope db7 c_base).getD 0 empty_entry).credits =
        ((leaderboard_scope db7 c_base).getD 1 empty_entry).credits →
      lb_string_key ((leaderboard_scope db7 c_base).getD 0 empty_entry) ≤
        lb_string_key ((leaderboard_scope db7 c_base).getD 1 empty_entry)) :=
  C7_leaderboard_order db7 c_base 0 1 (by decide) (by decide)

/-- Claim C8: participant search returns at most 5 results, every result
matches the case-insensitive substring disjunction over organization name,
owner full name, postal code, city and region code, and every result belongs
to the contestant list (hence to the eligible set) used for ranking. -/
theorem C8_search_contract (db : DB) (c : Contest) (q : String) :
    (participant_search db c q).length ≤ 5 ∧
    ∀ p, p ∈ participant_search db c q →
      search_match db q p = true ∧ p ∈ contestant_list db c ∧
        p ∈ allowed_profiles db c := by
  constructor
  · have h := List.length_take_le 5 ((contestant_list db c).filter (search_match db q))
    simpa [participant_search] using h
  · intro p hp
    have h1 : p ∈ (contestant_list db c).filter (search_match db q) :=
      List.take_subset _ _ hp
    have h2 := List.mem_filter.mp h1
    have h3 : p ∈ allowed_profiles db c := (List.mem_filter.mp h2.1).1
    exact ⟨h2.2, h2.1, h3⟩

/-- Witness for C8 at the fixture database: the query "acm" matches the
organization name Acme case-insensitively. -/
theorem C8_search_contract_witness :
    (participant_search db8 c_base "acm").length ≤ 5 ∧
      (search_match db8 "acm" p8 = true ∧ p8 ∈ contestant_list db8 c_base ∧
        p8 ∈ allowed_profiles db8 c_base) :=
  ⟨(C8_search_contract db8 c_base "acm").1,
    (C8_search_contract db8 c_base "acm").2 p8 (by decide)⟩

/-- Counterexample to claim C4: a read on an absent cache entry returns the
plain empty list — exactly the value a cached empty leaderboard returns — so
no explicit "unavailable / not yet computed" marker exists. -/
theorem C4_cache_miss_cx :
    (leaderboard c_base { cache := none, queue := [] }).1 = ([] : List RankedEntry) ∧
    (leaderboard c_base { cache := some [], queue := [] }).1 = ([] : List RankedEntry) :=
  ⟨rfl, rfl⟩

/-- Claim C4 amended: a read on an absent cache entry triggers
invalidate_leaderboard (enqueueing a recompute when the address display flag
is set) and returns the empty list, indistinguishable from a cached empty
leaderboard; a present cache entry is returned unchanged. -/
theorem C4_cache_miss_amended (c : Contest) (s : CacheState) :
    (s.cache = none → leaderboard c s = ([], invalidate_leaderboard c s)) ∧
    ∀ v, s.cache = some v → leaderboard c s = (v, s) := by
  constructor
  · intro h
    simp [leaderboard, h]
  · intro v h
    simp [leaderboard, h]

/-- Witness for the amended C4 on an empty cache state. -/
theorem C4_cache_miss_amended_witness :
    leaderboard c_base { cache := none, queue := [] } =
      ([], invalidate_leaderboard c_base { cache := none, queue := [] }) :=
  (C4_cache_miss_amended c_base { cache := none, queue := [] }).1 rfl

/-- Counterexample to claim C9: with one recompute job already in flight for
contest 1, two further invalidations enqueue two further jobs — the queue
holds three jobs, not the claimed in-flight one plus a single coalesced
follow-up. -/
theorem C9_invalidation_cx :
    (invalidate_leaderboard c_base (invalidate_leaderboard c_base
      { cache := none, queue := [1] })).queue = [1, 1, 1] := rfl

/-- Claim C9 amended: there is no coalescing and no at-most-one-in-flight
control; every invalidation for a contest with the address display flag set
appends one more recompute job, so n invalidations during an in-flight
recompute produce n additional recomputes. -/
theorem C9_invalidation_amended (c : Contest) (s : CacheState)
    (h : c.leaderboard_display_address = true) :
    ∀ n, ((invalidate_leaderboard c)^[n] s).queue.length = s.queue.length + n := by
  intro n
  induction n with
  | zero => simp
  | succ n ih =>
    rw [Function.iterate_succ_apply']
    simp only [invalidate_leaderboard, h, if_true, List.length_append, ih]
    simp
    omega

/-- Witness for the amended C9: two invalidations on top of a one-job queue
yield three jobs. -/
theorem C9_invalidation_amended_witness :
    ((invalidate_leaderboard c_base)^[2] { cache := none, queue := [1] }).queue.length =
      ({ cache := none, queue := [1] } : CacheState).queue.length + 2 :=
  C9_invalidation_amended c_base { cache := none, queue := [1] } rfl 2

/-- Claim C10: with the leaderboard_display_address flag unset, invalidation
schedules no recompute job, and a cache-miss leaderboard read returns the
empty list with the state unchanged — the computation that would populate the
cache is never triggered. -/
theorem C10_flag_unset_no_job (c : Contest) (s : CacheState)
    (h : c.leaderboard_display_address = false) :
    invalidate_leaderboard c s = s ∧
      (s.cache = none → leaderboard c s = ([], s)) := by
  have hinv : invalidate_leaderboard c s = s := by
    simp [invalidate_leaderboard, h]
  refine ⟨hinv, ?_⟩
  intro hc
  simp [leaderboard, hc, hinv]

/-- Witness for C10 on the fixture contest with the flag unset. -/
theorem C10_flag_unset_no_job_witness :
    invalidate_leaderboard c10 { cache := none, queue := [] } =
        { cache := none, queue := [] } ∧
      leaderboard c10 { cache := none, queue := [] } =
        ([], { cache := none, queue := [] }) :=
  ⟨(C10_flag_unset_no_job c10 { cache := none, queue := [] } rfl).1,
    (C10_flag_unset_no_job c10 { cache := none, queue := [] } rfl).2 rfl⟩
